import Mathlib

/-!
Shallow embedding of the temperature-analysis pipeline of
`src/utils_func.py` and `src/app.py`: rolling per-season statistics and
anomaly flags, the seasonal profile, descriptive statistics, the linear
trend fit, the normal-range check of a live reading, and the wrapper
around the weather API call.  Temperatures and timestamps are modelled
as exact rationals; the float value NaN produced by pandas is modelled
by `Option` (with `none` for NaN) or by the `PdFloat.nan` constructor.
-/

/-- One row of the per-city data frame: columns `timestamp` (as a numeric
instant), `temperature` and `season`, the columns `analyze_city_temperature`
reads. -/
structure TempRec where
  timestamp : ℚ
  temperature : ℚ
  season : String
deriving DecidableEq

/-- Temperatures of the rows carrying season label `s`, in original row
order: the `temperature` column of group `s` built by
`city_df.groupby('season')`. -/
def seasonTemps (rows : List TempRec) (s : String) : List ℚ :=
  (rows.filter (fun r => r.season == s)).map (fun r => r.temperature)

/-- Trailing window used by `rolling(window=30, min_periods=1)` inside the
group holding row `i`: the last (up to) 30 temperatures among rows `0..i`
that share the season label of row `i`.  An out-of-range index gives the
empty window. -/
def seasonWindow (rows : List TempRec) (i : Nat) : List ℚ :=
  match rows[i]? with
  | none => []
  | some r =>
    let g := seasonTemps (rows.take (i + 1)) r.season
    g.drop (g.length - 30)

/-- Arithmetic mean of a list of rationals (the empty list gives 0, a value
never consulted: every window below is nonempty). -/
def listMean (l : List ℚ) : ℚ := l.sum / l.length

/-- Sample variance, the square of the pandas `std` with its default
`ddof=1`; `none` models the NaN that pandas produces for a window holding a
single element, since a one-element sample standard deviation is undefined.
The variance rather than the standard deviation is stored so that the
definition stays inside ℚ; the standard deviation of the source is
`Real.sqrt` of this value, and the equivalence of the squared comparisons
used below with the comparisons of the source is proved once in lemma
`qd_bridge`. -/
def sampleVar (l : List ℚ) : Option ℚ :=
  if l.length < 2 then none
  else some ((l.map (fun x => (x - listMean l) ^ 2)).sum / ((l.length : ℚ) - 1))

/-- Column `rolling_mean` at row `i`. -/
def rollingMean (rows : List TempRec) (i : Nat) : ℚ :=
  listMean (seasonWindow rows i)

/-- Column `rolling_std` at row `i`, stored squared (`none` for NaN). -/
def rollingVar (rows : List TempRec) (i : Nat) : Option ℚ :=
  sampleVar (seasonWindow rows i)

/-- Column `anomaly` at row `i`.  The source evaluates
`temperature > rolling_mean + 2 * rolling_std or
temperature < rolling_mean - 2 * rolling_std`.
With `rolling_std = Real.sqrt v` for the stored `v ≥ 0`, the comparison
`t > m + 2 * rolling_std` is equivalent to
`0 < t - m ∧ 4 * v < (t - m) ^ 2`, the squared form used here to keep the
flag computable inside ℚ.  When `rolling_std` is NaN (`none`) every float
comparison against it is false, so the flag is `false`, as in the source. -/
def anomalyFlag (rows : List TempRec) (i : Nat) : Bool :=
  match rows[i]?, rollingVar rows i with
  | some r, some v =>
    (decide (0 < r.temperature - rollingMean rows i) &&
     decide (4 * v < (r.temperature - rollingMean rows i) ^ 2)) ||
    (decide (0 < rollingMean rows i - r.temperature) &&
     decide (4 * v < (rollingMean rows i - r.temperature) ^ 2))
  | _, _ => false

/-- Distinct season labels present in the data, the group keys of
`city_df.groupby('season')`. -/
def seasonKeys (rows : List TempRec) : List String :=
  (rows.map (fun r => r.season)).dedup

/-- Seasonal profile
`city_df.groupby('season')['temperature'].agg(['mean', 'std'])`:
one entry per season present in the data, carrying the whole-series mean
and the sample variance (the squared `std`, `none` for the NaN of a
single-row season) of the temperatures of that season. -/
def seasonProfile (rows : List TempRec) : List (String × ℚ × Option ℚ) :=
  (seasonKeys rows).map
    (fun s => (s, listMean (seasonTemps rows s), sampleVar (seasonTemps rows s)))

/-- A pandas float scalar: either a numeric value or NaN. -/
inductive PdFloat where
  | val (q : ℚ)
  | nan
deriving DecidableEq

/-- Mean of the series `city_df['temperature']`: pandas silently returns
NaN on an empty series. -/
def seriesMean (temps : List ℚ) : PdFloat :=
  if temps.isEmpty then PdFloat.nan else PdFloat.val (listMean temps)

/-- Min of the series `city_df['temperature']` (NaN on an empty series). -/
def seriesMin (temps : List ℚ) : PdFloat :=
  match temps with
  | [] => PdFloat.nan
  | x :: xs => PdFloat.val (xs.foldl min x)

/-- Max of the series `city_df['temperature']` (NaN on an empty series). -/
def seriesMax (temps : List ℚ) : PdFloat :=
  match temps with
  | [] => PdFloat.nan
  | x :: xs => PdFloat.val (xs.foldl max x)

/-- Descriptive statistics of `analyze_city_temperature`: whole-series
mean, min and max of the temperature column, computed with no emptiness
check, exactly as the source calls `.mean()`, `.min()`, `.max()`. -/
def basicStats (rows : List TempRec) : PdFloat × PdFloat × PdFloat :=
  (seriesMean (rows.map (fun r => r.temperature)),
   seriesMin (rows.map (fun r => r.temperature)),
   seriesMax (rows.map (fun r => r.temperature)))

/-- Ordinary-least-squares slope of `temps` regressed on `ts`, as computed
by `LinearRegression().fit(...)` with its default intercept: the centered
normal equation gives `sxy / sxx`; when every timestamp is identical the
centered design is the zero matrix and the least-squares solver returns the
minimum-norm solution, slope 0. -/
def trendSlope (ts temps : List ℚ) : ℚ :=
  let xbar := ts.sum / (ts.length : ℚ)
  let ybar := temps.sum / (temps.length : ℚ)
  let sxx := (ts.map (fun x => (x - xbar) ^ 2)).sum
  let sxy := ((ts.zip temps).map (fun p => (p.1 - xbar) * (p.2 - ybar))).sum
  if sxx = 0 then 0 else sxy / sxx

/-- The fit of the source raises `ValueError` on an empty design (sklearn
rejects 0 samples); otherwise it returns the slope. -/
def fitTrend (ts temps : List ℚ) : Except String ℚ :=
  if ts.isEmpty then Except.error "Found array with 0 samples"
  else Except.ok (trendSlope ts temps)

/-- The three messages of the trend branch of `app.py` (lines 39 to 44). -/
inductive TrendMsg where
  | positive
  | zeroFlat
  | negative
deriving DecidableEq

/-- The sign branching of `app.py`:
`if trend > 0` shows the positive message, `elif trend > 0` shows the flat
message, `else` shows the negative message — the second test repeats the
first, as in the source. -/
def trendMessage (trend : ℚ) : TrendMsg :=
  if trend > 0 then TrendMsg.positive
  else if trend > 0 then TrendMsg.zeroFlat
  else TrendMsg.negative

/-- Error raised by a pandas `.loc` lookup on a missing index key. -/
inductive PdError where
  | keyError (k : String)
deriving DecidableEq

/-- The lookup `city_result['season_profile'].loc[current_season]` of
`app.py`: the profile row of the season, or `KeyError(season)` when the
profile index has no such key. -/
def locSeason (profile : List (String × ℚ × Option ℚ)) (s : String) :
    Except PdError (ℚ × Option ℚ) :=
  match List.lookup s profile with
  | some mv => Except.ok mv
  | none => Except.error (PdError.keyError s)

/-- The normal-range verdict of `app.py`:
`lower_bound <= current_temp <= upper_bound` with
`lower_bound = mean_temp - 2 * std_temp` and
`upper_bound = mean_temp + 2 * std_temp`. -/
def isNormalReading (mean_temp std_temp current_temp : ℚ) : Bool :=
  decide (mean_temp - 2 * std_temp ≤ current_temp) &&
  decide (current_temp ≤ mean_temp + 2 * std_temp)

/-- Outcome of the HTTP exchange as observed by `get_current_temperature`:
either some step raised (network failure from `requests.get`, JSON parse
failure from `response.json()`), or a response with a status code was
parsed, together with the result that the later access
`data['main']['temp']` would produce (`Except.error` carries the text of
the raised `KeyError` when the keys are missing). -/
inductive FetchOutcome where
  | raised (e : String)
  | response (status : Nat) (mainTemp : Except String ℚ)

/-- A value returned by `get_current_temperature`: a float, the fixed
`cod` and `message` dictionary of the 401 branch, or a dictionary with an
`error` key. -/
inductive ApiReturn where
  | temperature (t : ℚ)
  | codMessage (cod message : String)
  | errorDict (message : String)
deriving DecidableEq

/-- Shallow embedding of `get_current_temperature`: the `except Exception`
clause turns any raise inside `try` into a dictionary with key `error` and
the text of the exception; a 401 status returns the fixed `cod` and
`message` dictionary; a 200 status returns `data['main']['temp']` (a raise
in that access is caught by the same `except`); any other status falls
through to the dictionary with message `Unexpected error occurred.`. -/
def get_current_temperature (o : FetchOutcome) : ApiReturn :=
  match o with
  | FetchOutcome.raised e => ApiReturn.errorDict e
  | FetchOutcome.response status mainTemp =>
    if status = 401 then
      ApiReturn.codMessage "401"
        "Invalid API key. Please see https://openweathermap.org/faq#error401 for more info."
    else if status = 200 then
      match mainTemp with
      | Except.ok t => ApiReturn.temperature t
      | Except.error e => ApiReturn.errorDict e
    else ApiReturn.errorDict "Unexpected error occurred."

/-- The data frame handed to `analyze_city_temperature`: the input rows
plus the three columns the function assigns in place (`none` before the
call, when the column is absent). -/
structure CityFrame where
  rows : List TempRec
  rollingMeanCol : Option (List ℚ)
  rollingStdCol : Option (List (Option ℚ))
  anomalyCol : Option (List Bool)
deriving DecidableEq

/-- The dictionary returned by `analyze_city_temperature`. -/
structure AnalysisResult where
  city : String
  average_temperature : PdFloat
  min_temperature : PdFloat
  max_temperature : PdFloat
  season_profile : List (String × ℚ × Option ℚ)
  trend : Except String ℚ
  rolling_mean : List (ℚ × ℚ)
  rolling_std : List (ℚ × Option ℚ)
  anomalies : List (ℚ × ℚ)

/-- Shallow embedding of `analyze_city_temperature`: the function assigns
the columns `rolling_mean`, `rolling_std` and `anomaly` in place on the
frame it was given — the second component of the result is that frame as
the caller observes it after the call — and then builds the result
dictionary. -/
def analyzeCity (f : CityFrame) (selected_city : String) :
    AnalysisResult × CityFrame :=
  let rows := f.rows
  let idx := List.range rows.length
  let rm := idx.map (fun i => rollingMean rows i)
  let rs := idx.map (fun i => rollingVar rows i)
  let an := idx.map (fun i => anomalyFlag rows i)
  let f2 : CityFrame := ⟨rows, some rm, some rs, some an⟩
  let temps := rows.map (fun r => r.temperature)
  let stamps := rows.map (fun r => r.timestamp)
  let result : AnalysisResult :=
    ⟨selected_city,
     seriesMean temps, seriesMin temps, seriesMax temps,
     seasonProfile rows,
     fitTrend stamps temps,
     stamps.zip rm,
     stamps.zip rs,
     ((rows.zip an).filter (fun p => p.2)).map
       (fun p => (p.1.timestamp, p.1.temperature))⟩
  (result, f2)

/-- Auxiliary: a stored sample variance is nonnegative. -/
lemma sampleVar_nonneg (l : List ℚ) (v : ℚ) (h : sampleVar l = some v) : 0 ≤ v := by
  unfold sampleVar at h
  by_cases hl : l.length < 2
  · rw [if_pos hl] at h
    exact absurd h (by simp)
  · rw [if_neg hl] at h
    simp only [Option.some.injEq] at h
    subst h
    apply div_nonneg
    · apply List.sum_nonneg
      intro x hx
      simp only [List.mem_map] at hx
      obtain ⟨a, ha, rfl⟩ := hx
      positivity
    · have h2 : (2 : ℚ) ≤ (l.length : ℚ) := by exact_mod_cast Nat.le_of_not_lt hl
      linarith

/-- Auxiliary: a strict comparison against twice a square root, restated in
squared form. -/
lemma two_sqrt_lt_iff (d v : ℝ) (_hv : 0 ≤ v) :
    2 * Real.sqrt v < d ↔ 0 < d ∧ 4 * v < d ^ 2 := by
  constructor
  · intro h
    have hs : 0 ≤ Real.sqrt v := Real.sqrt_nonneg v
    have hd : 0 < d := lt_of_le_of_lt (by linarith) h
    refine ⟨hd, ?_⟩
    have h2 : Real.sqrt v < d / 2 := by linarith
    have h3 := (Real.sqrt_lt' (by linarith : (0 : ℝ) < d / 2)).mp h2
    nlinarith
  · rintro ⟨hd, h4⟩
    have h2 : Real.sqrt v < d / 2 :=
      (Real.sqrt_lt' (by linarith : (0 : ℝ) < d / 2)).mpr (by nlinarith)
    linarith

/-- Auxiliary: rational form of the square-root bridge used by the anomaly
flag. -/
lemma qd_bridge (d v : ℚ) (hv : 0 ≤ v) :
    (0 < d ∧ 4 * v < d ^ 2) ↔ 2 * Real.sqrt (v : ℝ) < (d : ℝ) := by
  rw [two_sqrt_lt_iff (d : ℝ) (v : ℝ) (by exact_mod_cast hv)]
  constructor
  · rintro ⟨h1, h2⟩
    exact ⟨by exact_mod_cast h1, by exact_mod_cast h2⟩
  · rintro ⟨h1, h2⟩
    exact ⟨by exact_mod_cast h1, by exact_mod_cast h2⟩

/-- C1: a record is flagged anomalous exactly when its temperature lies
strictly above `rolling_mean + 2 * rolling_std` or strictly below
`rolling_mean - 2 * rolling_std`, where the rolling statistics are the
trailing mean and sample standard deviation (the square root of the stored
variance) over the window of up to 30 records, current one included, taken
inside the season partition of the record in original row order; when the
standard deviation is NaN (`rollingVar` gives `none`) no such strict
comparison holds and the flag is false. -/
theorem anomalyFlag_iff_bounds (rows : List TempRec) (i : Nat) (r : TempRec)
    (h : rows[i]? = some r) :
    anomalyFlag rows i = true ↔
      ∃ v, rollingVar rows i = some v ∧
        ((r.temperature : ℝ) > (rollingMean rows i : ℝ) + 2 * Real.sqrt (v : ℝ) ∨
         (r.temperature : ℝ) < (rollingMean rows i : ℝ) - 2 * Real.sqrt (v : ℝ)) := by
  unfold anomalyFlag
  rw [h]
  cases hv : rollingVar rows i with
  | none => simp
  | some v =>
    have hv0 : 0 ≤ v := sampleVar_nonneg _ _ hv
    simp only [Bool.or_eq_true, Bool.and_eq_true, decide_eq_true_eq,
      Option.some.injEq]
    constructor
    · rintro (⟨h1, h2⟩ | ⟨h1, h2⟩)
      · refine ⟨v, rfl, Or.inl ?_⟩
        have hb := (qd_bridge (r.temperature - rollingMean rows i) v hv0).mp ⟨h1, h2⟩
        have hc : ((r.temperature - rollingMean rows i : ℚ) : ℝ) =
            (r.temperature : ℝ) - (rollingMean rows i : ℝ) := by push_cast; ring
        rw [hc] at hb
        linarith
      · refine ⟨v, rfl, Or.inr ?_⟩
        have hb := (qd_bridge (rollingMean rows i - r.temperature) v hv0).mp ⟨h1, h2⟩
        have hc : ((rollingMean rows i - r.temperature : ℚ) : ℝ) =
            (rollingMean rows i : ℝ) - (r.temperature : ℝ) := by push_cast; ring
        rw [hc] at hb
        linarith
    · rintro ⟨v2, rfl, hcase⟩
      rcases hcase with hgt | hlt
      · refine Or.inl ((qd_bridge (r.temperature - rollingMean rows i) v hv0).mpr ?_)
        have hc : ((r.temperature - rollingMean rows i : ℚ) : ℝ) =
            (r.temperature : ℝ) - (rollingMean rows i : ℝ) := by push_cast; ring
        rw [hc]
        linarith
      · refine Or.inr ((qd_bridge (rollingMean rows i - r.temperature) v hv0).mpr ?_)
        have hc : ((rollingMean rows i - r.temperature : ℚ) : ℝ) =
            (rollingMean rows i : ℝ) - (r.temperature : ℝ) := by push_cast; ring
        rw [hc]
        linarith

/-- Witness for C1, at a one-row frame. -/
theorem anomalyFlag_iff_bounds_w :
    ([TempRec.mk 0 5 "winter"] : List TempRec)[0]? = some (TempRec.mk 0 5 "winter") ∧
    (anomalyFlag [TempRec.mk 0 5 "winter"] 0 = true ↔
      ∃ v, rollingVar [TempRec.mk 0 5 "winter"] 0 = some v ∧
        (((TempRec.mk 0 5 "winter").temperature : ℝ) >
            (rollingMean [TempRec.mk 0 5 "winter"] 0 : ℝ) + 2 * Real.sqrt (v : ℝ) ∨
         ((TempRec.mk 0 5 "winter").temperature : ℝ) <
            (rollingMean [TempRec.mk 0 5 "winter"] 0 : ℝ) - 2 * Real.sqrt (v : ℝ))) :=
  ⟨rfl, anomalyFlag_iff_bounds [TempRec.mk 0 5 "winter"] 0 (TempRec.mk 0 5 "winter") rfl⟩

/-- C2: the first record of a season partition rolls over a one-element
window, so its sample standard deviation is undefined (NaN, modelled
`none`); the undefined value propagates without crashing (the pipeline is
total and keeps the `none`), and the anomaly flag of that record is false,
whatever its temperature. -/
theorem first_of_season_not_anomalous (pre : List TempRec) (r : TempRec)
    (post : List TempRec) (hfirst : ∀ p ∈ pre, p.season ≠ r.season) :
    seasonWindow (pre ++ r :: post) pre.length = [r.temperature] ∧
    rollingVar (pre ++ r :: post) pre.length = none ∧
    anomalyFlag (pre ++ r :: post) pre.length = false := by
  have hget : (pre ++ r :: post)[pre.length]? = some r := by
    rw [List.getElem?_append_right (le_refl pre.length)]
    simp
  have htake : (pre ++ r :: post).take (pre.length + 1) = pre ++ [r] := by
    rw [List.take_append_eq_append_take,
      List.take_of_length_le (Nat.le_succ pre.length), Nat.add_sub_cancel_left]
    simp
  have hst : seasonTemps ((pre ++ r :: post).take (pre.length + 1)) r.season =
      [r.temperature] := by
    rw [htake]
    unfold seasonTemps
    rw [List.filter_append]
    have hpre : pre.filter (fun p => p.season == r.season) = [] := by
      rw [List.filter_eq_nil_iff]
      intro p hp
      simpa using hfirst p hp
    rw [hpre]
    simp
  have hwin : seasonWindow (pre ++ r :: post) pre.length = [r.temperature] := by
    unfold seasonWindow
    rw [hget]
    show (let g := seasonTemps ((pre ++ r :: post).take (pre.length + 1)) r.season
          g.drop (g.length - 30)) = [r.temperature]
    rw [hst]
    simp
  have hvar : rollingVar (pre ++ r :: post) pre.length = none := by
    unfold rollingVar
    rw [hwin]
    rfl
  refine ⟨hwin, hvar, ?_⟩
  unfold anomalyFlag
  rw [hget, hvar]

/-- Witness for C2, at a frame whose single row opens its season. -/
theorem first_of_season_not_anomalous_w :
    (∀ p ∈ ([] : List TempRec), p.season ≠ (TempRec.mk 0 100 "winter").season) ∧
    (seasonWindow [TempRec.mk 0 100 "winter"] 0 = [(TempRec.mk 0 100 "winter").temperature] ∧
     rollingVar [TempRec.mk 0 100 "winter"] 0 = none ∧
     anomalyFlag [TempRec.mk 0 100 "winter"] 0 = false) :=
  ⟨by simp, first_of_season_not_anomalous [] (TempRec.mk 0 100 "winter") [] (by simp)⟩

/-- Auxiliary: looking a key up in an association list whose entries pair
each key of `l` with a value computed from it. -/
lemma lookup_map_key {β : Type} (f : String → β) (l : List String) (s : String) :
    List.lookup s (l.map (fun a => (a, f a))) =
      if s ∈ l then some (f s) else none := by
  induction l with
  | nil => simp [List.lookup]
  | cons a t ih =>
    by_cases hsa : s = a
    · subst hsa
      simp [List.lookup]
    · have hba : (s == a) = false := by simpa using hsa
      simp [List.lookup, hba, hsa, ih]

/-- Auxiliary: the profile lookup succeeds exactly on the seasons present
in the data, returning the whole-series per-season mean and variance. -/
lemma seasonProfile_lookup (rows : List TempRec) (s : String) :
    List.lookup s (seasonProfile rows) =
      if s ∈ rows.map (fun r => r.season) then
        some (listMean (seasonTemps rows s), sampleVar (seasonTemps rows s))
      else none := by
  unfold seasonProfile seasonKeys
  rw [lookup_map_key]
  by_cases hs : s ∈ rows.map (fun r => r.season)
  · rw [if_pos ((List.mem_dedup).mpr hs), if_pos hs]
  · rw [if_neg (fun hc => hs ((List.mem_dedup).mp hc)), if_neg hs]

/-- C5: the key set of the seasonal profile is exactly the set of season
labels present in the series, and the entry of a present season holds the
whole-series mean and sample variance (squared standard deviation) of the
temperatures of that season; an absent season has no entry. -/
theorem seasonProfile_keys_exact (rows : List TempRec) (s : String) :
    (s ∈ (seasonProfile rows).map (fun e => e.1) ↔
      s ∈ rows.map (fun r => r.season)) ∧
    List.lookup s (seasonProfile rows) =
      (if s ∈ rows.map (fun r => r.season) then
        some (listMean (seasonTemps rows s), sampleVar (seasonTemps rows s))
      else none) := by
  constructor
  · unfold seasonProfile seasonKeys
    rw [List.map_map]
    simp [List.mem_dedup]
  · exact seasonProfile_lookup rows s

/-- C4: checking a current reading against a season absent from the data
behind the profile fails with the distinguishable season-not-found
condition `KeyError(season)` raised by the pandas `.loc` lookup — it does
not succeed, in particular not with a silent default profile row of
mean 0 and std 0. -/
theorem missing_season_keyError (rows : List TempRec) (s : String)
    (h : s ∉ rows.map (fun r => r.season)) :
    locSeason (seasonProfile rows) s = Except.error (PdError.keyError s) ∧
    ∀ mv, locSeason (seasonProfile rows) s ≠ Except.ok mv := by
  have hl : locSeason (seasonProfile rows) s = Except.error (PdError.keyError s) := by
    unfold locSeason
    rw [seasonProfile_lookup rows s, if_neg h]
  exact ⟨hl, fun mv hc => by rw [hl] at hc; exact Except.noConfusion hc⟩

/-- Witness for C4: a profile built from winter-only data has no summer
row. -/
theorem missing_season_keyError_w :
    ("summer" ∉ ([TempRec.mk 0 1 "winter"] : List TempRec).map (fun r => r.season)) ∧
    (locSeason (seasonProfile [TempRec.mk 0 1 "winter"]) "summer" =
        Except.error (PdError.keyError "summer") ∧
     ∀ mv, locSeason (seasonProfile [TempRec.mk 0 1 "winter"]) "summer" ≠
        Except.ok mv) :=
  ⟨by decide, missing_season_keyError [TempRec.mk 0 1 "winter"] "summer" (by decide)⟩

/-- C3 (code defect, evaluated at the failing input): at a constant
two-point series the fitted slope is exactly 0, yet the branch of
`app.py` shows the negative-trend message, and no trend value at all can
reach the flat-trend message, because the test of the second branch
repeats the test of the first. -/
theorem trend_zero_branch_unreachable :
    trendSlope [0, 1] [5, 5] = 0 ∧
    trendMessage (trendSlope [0, 1] [5, 5]) = TrendMsg.negative ∧
    ∀ t : ℚ, trendMessage t ≠ TrendMsg.zeroFlat := by
  have hs : trendSlope [0, 1] [5, 5] = 0 := by with_unfolding_all rfl
  refine ⟨hs, ?_, ?_⟩
  · rw [hs]
    unfold trendMessage
    norm_num
  · intro t
    unfold trendMessage
    by_cases h : t > 0
    · simp [h]
    · simp [h]

/-- C6 counterexample: on the empty series the source computes the three
descriptive statistics with no failure at all, silently producing NaN for
each of mean, min and max. -/
theorem basicStats_empty_silent_nan :
    basicStats [] = (PdFloat.nan, PdFloat.nan, PdFloat.nan) := rfl

/-- C6 (amended): the descriptive statistics never fail; each of mean, min
and max is the NaN value exactly when the series is empty, and that NaN
propagates into the result rather than being raised as an error. -/
theorem basicStats_nan_iff_empty (rows : List TempRec) :
    ((basicStats rows).1 = PdFloat.nan ↔ rows = []) ∧
    ((basicStats rows).2.1 = PdFloat.nan ↔ rows = []) ∧
    ((basicStats rows).2.2 = PdFloat.nan ↔ rows = []) := by
  cases rows with
  | nil => simp [basicStats, seriesMean, seriesMin, seriesMax]
  | cons r t =>
    unfold basicStats seriesMean seriesMin seriesMax
    simp

/-- C7 counterexample: a two-row series whose timestamps coincide (fewer
than 2 distinct timestamp values) does not make the trend estimator fail:
the fit succeeds and returns the degenerate slope 0. -/
theorem fitTrend_degenerate_no_failure :
    fitTrend [5, 5] [1, 3] = Except.ok 0 ∧
    ∀ e, fitTrend [5, 5] [1, 3] ≠ Except.error e := by
  have h : fitTrend [5, 5] [1, 3] = Except.ok 0 := by with_unfolding_all rfl
  exact ⟨h, fun e hc => by rw [h] at hc; exact Except.noConfusion hc⟩

/-- C7 (amended): on any nonempty series whose timestamps are all equal,
the trend fit does not fail; the centered design is zero, so the
least-squares solver returns the minimum-norm slope 0.  (The empty series
is the one case where the fit raises, with the 0-samples error of
sklearn.) -/
theorem fitTrend_constant_timestamps (ts temps : List ℚ) (c : ℚ)
    (hne : ts ≠ []) (hall : ∀ x ∈ ts, x = c) :
    fitTrend ts temps = Except.ok 0 := by
  unfold fitTrend
  rw [if_neg (by simpa using hne)]
  have hlen : (ts.length : ℚ) ≠ 0 := by
    have h0 : ts.length ≠ 0 := by simpa [List.length_eq_zero] using hne
    exact_mod_cast h0
  have hxbar : ts.sum / (ts.length : ℚ) = c := by
    rw [List.sum_eq_card_nsmul ts c hall, nsmul_eq_mul, mul_comm,
      mul_div_assoc, div_self hlen, mul_one]
  have hsxx : (ts.map (fun x => (x - ts.sum / (ts.length : ℚ)) ^ 2)).sum = 0 := by
    apply List.sum_eq_zero
    intro y hy
    simp only [List.mem_map] at hy
    obtain ⟨x, hx, rfl⟩ := hy
    rw [hxbar, hall x hx, sub_self]
    ring
  unfold trendSlope
  rw [if_pos hsxx]

/-- Witness for C7 (amended), at a three-row constant-timestamp series. -/
theorem fitTrend_constant_timestamps_w :
    ([7, 7, 7] : List ℚ) ≠ [] ∧ (∀ x ∈ ([7, 7, 7] : List ℚ), x = 7) ∧
    fitTrend [7, 7, 7] [1, 2, 3] = Except.ok 0 :=
  ⟨by simp, by simp, fitTrend_constant_timestamps [7, 7, 7] [1, 2, 3] 7
    (by simp) (by simp)⟩

/-- C8: the normal-range verdict holds exactly when the current temperature
lies between `mean - 2*std` and `mean + 2*std`, both endpoints included:
the reading equal to `mean + 2*std` is normal (for the nonnegative standard
deviation a profile provides), and any reading `mean + 2*std + ε` with
`ε > 0` is not. -/
theorem isNormalReading_characterization (mean_temp std_temp : ℚ) :
    (∀ t : ℚ, isNormalReading mean_temp std_temp t = true ↔
      mean_temp - 2 * std_temp ≤ t ∧ t ≤ mean_temp + 2 * std_temp) ∧
    (0 ≤ std_temp →
      isNormalReading mean_temp std_temp (mean_temp + 2 * std_temp) = true) ∧
    (∀ ε : ℚ, 0 < ε →
      isNormalReading mean_temp std_temp (mean_temp + 2 * std_temp + ε) = false) := by
  refine ⟨?_, ?_, ?_⟩
  · intro t
    simp [isNormalReading]
  · intro hs
    simp only [isNormalReading, Bool.and_eq_true, decide_eq_true_eq]
    constructor <;> linarith
  · intro ε hε
    have hout : ¬(mean_temp + 2 * std_temp + ε ≤ mean_temp + 2 * std_temp) := by
      linarith
    simp [isNormalReading, hout]

/-- Witness for C8, at mean 10 and std 2. -/
theorem isNormalReading_characterization_w :
    (0 ≤ (2 : ℚ)) ∧ (0 < (1 : ℚ)) ∧
    isNormalReading 10 2 (10 + 2 * 2) = true ∧
    isNormalReading 10 2 (10 + 2 * 2 + 1) = false :=
  ⟨by norm_num, by norm_num,
   (isNormalReading_characterization 10 2).2.1 (by norm_num),
   (isNormalReading_characterization 10 2).2.2 1 (by norm_num)⟩

/-- C9 counterexample: one analysis call does not leave the caller-owned
frame unchanged — at a concrete one-row frame the frame observed after the
call differs from the frame passed in, because the analyzer assigned the
three derived columns in place. -/
theorem analyzeCity_mutates_input :
    (analyzeCity ⟨[TempRec.mk 0 5 "winter"], none, none, none⟩ "Berlin").2 ≠
      ⟨[TempRec.mk 0 5 "winter"], none, none, none⟩ := by
  intro h
  exact absurd (congrArg CityFrame.anomalyCol h) (by simp [analyzeCity])

/-- C9 (amended): the analyzer mutates its input frame in place, adding the
`rolling_mean`, `rolling_std` and `anomaly` columns; the original rows
(timestamp, temperature, season) are left untouched. -/
theorem analyzeCity_frame_effect (f : CityFrame) (city : String) :
    (analyzeCity f city).2.rows = f.rows ∧
    (analyzeCity f city).2.rollingMeanCol =
      some ((List.range f.rows.length).map (fun i => rollingMean f.rows i)) ∧
    (analyzeCity f city).2.rollingStdCol =
      some ((List.range f.rows.length).map (fun i => rollingVar f.rows i)) ∧
    (analyzeCity f city).2.anomalyCol =
      some ((List.range f.rows.length).map (fun i => anomalyFlag f.rows i)) :=
  ⟨rfl, rfl, rfl, rfl⟩

/-- C10: `get_current_temperature` is total (never lets an exception out)
and its return value classifies every outcome: the float on a well-formed
200 response, the fixed `cod` and `message` dictionary on 401, an `error`
dictionary carrying the exception text when the request, the JSON parse or
the body access raised, and the fixed `error` dictionary on any other
status code. -/
theorem get_current_temperature_classification :
    (∀ e, get_current_temperature (FetchOutcome.raised e) = ApiReturn.errorDict e) ∧
    (∀ mt, get_current_temperature (FetchOutcome.response 401 mt) =
      ApiReturn.codMessage "401"
        "Invalid API key. Please see https://openweathermap.org/faq#error401 for more info.") ∧
    (∀ t, get_current_temperature (FetchOutcome.response 200 (Except.ok t)) =
      ApiReturn.temperature t) ∧
    (∀ e, get_current_temperature (FetchOutcome.response 200 (Except.error e)) =
      ApiReturn.errorDict e) ∧
    (∀ status mt, status ≠ 401 → status ≠ 200 →
      get_current_temperature (FetchOutcome.response status mt) =
        ApiReturn.errorDict "Unexpected error occurred.") := by
  refine ⟨fun e => rfl, fun mt => rfl, fun t => rfl, fun e => rfl, ?_⟩
  intro status mt h1 h2
  simp [get_current_temperature, h1, h2]

/-- Witness for C10, at a 500 response. -/
theorem get_current_temperature_classification_w :
    ((500 : Nat) ≠ 401) ∧ ((500 : Nat) ≠ 200) ∧
    get_current_temperature (FetchOutcome.response 500 (Except.ok 3)) =
      ApiReturn.errorDict "Unexpected error occurred." :=
  ⟨by decide, by decide,
   get_current_temperature_classification.2.2.2.2 500 (Except.ok 3)
     (by decide) (by decide)⟩
